import Mathlib

/-!
# Verification of the CRL-ingestion status engine

A shallow embedding of the status aggregation and classification engine of
`src/main.py` and `src/ct_status.py`: timeline building (`load_cached_data`),
cell classification (`is_valid`, `get_status_color`), revocation-delta and
anomaly detection (the cell-rendering loop of `create_heatmap_html`),
severity ranking (`create_heatmap_html.sort_key`), and the CT-log lag table
ordering (`create_ct_log_table`, `ct_status.process_log`).

Conventions of the embedding:
* Python values that can be an int, a string or `None` (JSON numbers,
  strings, null) are `PyVal`.  Other JSON scalars behave exactly like a
  non-int `PyVal` in every code path the claims touch.
* Python dicts used as ordered maps (`issuer_statuses`, each issuer's
  `statuses`) are association lists with in-place update, matching dict
  insertion-order semantics.
* `s in t` on Python strings is substring containment, embedded as
  `List.IsInfix` on the character data.
* Python `int(...)` is embedded for optionally signed ASCII decimal strings
  with surrounding whitespace (underscore digit separators and non-ASCII
  digits, which `int` also accepts, never occur in age strings and are not
  modelled).
* Python `str.lower` is embedded for ASCII strings (issuer URLs).
-/

/-- A Python value as it occurs in a parsed audit-entry field: an int,
a string, or `None` (JSON `null`).  Only `isinstance(-, int)` and equality
are ever asked of these values by the code under study. -/
inductive PyVal where
  | pyInt (n : Int)
  | pyStr (s : String)
  | pyNone
  deriving DecidableEq, Repr

/-- `isinstance(v, int)` of `PyVal`. -/
def PyVal.isInt : PyVal → Bool
  | .pyInt _ => true
  | _ => false

/-- Python `needle in hay` on strings: substring containment. -/
def pyIn (needle hay : String) : Bool := decide (needle.data <:+: hay.data)

/-- Python `str.lower` for one ASCII character. -/
def pyCharLower (c : Char) : Char :=
  if 'A' ≤ c ∧ c ≤ 'Z' then Char.ofNat (c.toNat + 32) else c

/-- Python `str.lower` (ASCII). -/
def pyLower (s : String) : String := ⟨s.data.map pyCharLower⟩

/-- Python `int(s)` for an optionally signed decimal string with surrounding
whitespace (`None` is a raised `ValueError`): strip, optional sign, then a
non-empty run of ASCII digits. -/
def digitsVal (cs : List Char) : Option Nat :=
  if cs.isEmpty then none
  else if cs.all Char.isDigit then
    some (cs.foldl (fun n c => 10 * n + (c.toNat - 48)) 0)
  else none

/-- Strip leading and trailing whitespace, as Python `int` does before
parsing. -/
def pyStrip (cs : List Char) : List Char :=
  ((cs.dropWhile Char.isWhitespace).reverse.dropWhile Char.isWhitespace).reverse

/-- Python `int(s)`, returning `none` where `int` raises `ValueError`. -/
def pythonInt (s : String) : Option Int :=
  match pyStrip s.data with
  | '+' :: rest => (digitsVal rest).map (fun n => (n : Int))
  | '-' :: rest => (digitsVal rest).map (fun n => -(n : Int))
  | rest => (digitsVal rest).map (fun n => (n : Int))

/-- `int(age.split('h')[0])` from `get_status_color` (main.py 184-190):
the characters before the first `'h'` of the age string, parsed as a Python
int; `none` is the raised `ValueError` the code catches. -/
def parse_age_hours (age : String) : Option Int :=
  pythonInt ⟨age.data.takeWhile (fun c => c != 'h')⟩

/-- `is_valid` (main.py 150-167): classify a kind string. -/
def is_valid (kind : String) : Bool × String :=
  if pyIn "Valid" kind || pyIn "Empty" kind then (true, "valid")
  else if pyIn "Warning" kind then (false, "warning")
  else (false, "error")

/-- `get_status_color` (main.py 170-195): the cell background color; a valid
entry older than 336 hours is shown in the warning color, an unparseable age
leaves the valid color unchanged. -/
def get_status_color (kind age : String) : String :=
  let status := (is_valid kind).2
  if status = "valid" then
    match parse_age_hours age with
    | some hours => if hours > 336 then "#FFEB3B" else "#90EE90"
    | none => "#90EE90"
  else if status = "warning" then "#FFEB3B"
  else "#FFB6C1"

/-! ## Association lists with Python-dict semantics

`issuer_statuses` and each issuer's `statuses` are Python dicts used as
ordered maps: looking up a key finds its value, assigning to an existing key
replaces the value in place, assigning to a new key appends it. -/

/-- Dict lookup: `d[k]` / `k in d`. -/
def findA {α : Type} : List (String × α) → String → Option α
  | [], _ => none
  | p :: t, k => if p.1 = k then some p.2 else findA t k

/-- Dict assignment `d[k] = v`: replace in place, or append a new key. -/
def insertA {α : Type} : List (String × α) → String → α → List (String × α)
  | [], k, v => [(k, v)]
  | p :: t, k, v => if p.1 = k then (k, v) :: t else p :: insertA t k v

/-! ## The timeline builder (`load_cached_data`, main.py 112-148) -/

/-- A raw audit entry of a snapshot document, with every field optional as in
a parsed JSON object (`entry.get(...)` supplies the defaults). -/
structure RawEntry where
  url : Option String
  issuerSubject : Option String
  kind : Option String
  numRevocations : Option PyVal
  errors : Option String
  age : Option String
  sha256sum : Option String
  deriving DecidableEq, Repr

/-- One issuer status as recorded for one slot (main.py 138-144). -/
structure StatusEntry where
  kind : String
  num_revocations : PyVal
  errors : String
  age : String
  sha256sum : String
  deriving DecidableEq, Repr

/-- One issuer's record: display url, subject, and the ordered map from
slot identity (date-suffix) to its status (main.py 133-137). -/
structure IssuerData where
  url : String
  issuer : String
  statuses : List (String × StatusEntry)
  deriving DecidableEq, Repr

/-- A cached slot document.  `load_cached_data` reads it with
`data.get('Entries', [])`, so only a JSON *object* yields entries; a
document that is a top-level JSON array has no `.get` method, the raised
`AttributeError` is caught at main.py 145-146 and the slot contributes
nothing. -/
inductive Document where
  | obj (entriesField : Option (List RawEntry))
  | arr (elems : List RawEntry)
  deriving DecidableEq, Repr

/-- The state of one expected slot when the loader visits it: no cache file,
a cache file that fails to load or parse (the exception is caught at
main.py 145-146), or a parsed document. -/
inductive SlotData where
  | absent
  | loadError
  | doc (d : Document)
  deriving DecidableEq, Repr

/-- The status dict built from one raw entry (main.py 138-144), with the
`entry.get` defaults: note the default revocation count is the *string*
`'0'`. -/
def mkStatus (e : RawEntry) : StatusEntry :=
  { kind := e.kind.getD "N/A"
  , num_revocations := e.numRevocations.getD (.pyStr "0")
  , errors := e.errors.getD ""
  , age := e.age.getD "N/A"
  , sha256sum := e.sha256sum.getD "N/A" }

/-- `'Not Fresh' in entry.get('Kind', 'N/A')` (main.py 129). -/
def isNotFresh (e : RawEntry) : Bool := pyIn "Not Fresh" (e.kind.getD "N/A")

/-- The issuer key of an entry: `entry.get('Url', 'N/A')` (main.py 131). -/
def entryKey (e : RawEntry) : String := e.url.getD "N/A"

/-- Ingest one audit entry of slot `dateSuffix` into the issuer mapping
(main.py 128-144): skip `Not Fresh` entries; create the issuer record on
first sight (display url defaulting to `''`); record the status under the
slot. -/
def ingestEntry (dateSuffix : String) (st : List (String × IssuerData))
    (e : RawEntry) : List (String × IssuerData) :=
  if isNotFresh e then st
  else
    let key := entryKey e
    let d := (findA st key).getD
      { url := e.url.getD "", issuer := e.issuerSubject.getD "N/A", statuses := [] }
    insertA st key { d with statuses := insertA d.statuses dateSuffix (mkStatus e) }

/-- The entries one slot contributes (main.py 124-146): an absent file, a
load/parse failure, a top-level-array document (whose `.get` raises, caught)
and an object without an `Entries` field all contribute none. -/
def slotEntries : SlotData → List RawEntry
  | .absent => []
  | .loadError => []
  | .doc (.arr _) => []
  | .doc (.obj entriesField) => entriesField.getD []

/-- Fold one slot into the issuer mapping. -/
def loadSlot (st : List (String × IssuerData)) (slot : String × SlotData) :
    List (String × IssuerData) :=
  (slotEntries slot.2).foldl (ingestEntry slot.1) st

/-- `load_cached_data` (main.py 112-148) as a pure fold over the ordered
slot list (each expected slot identity paired with what its cache file
held); returns the issuer-URL → timeline mapping.  The returned
`file_dates` list is the slots' identities, `slots.map (·.1)`. -/
def load_cached_data (slots : List (String × SlotData)) :
    List (String × IssuerData) :=
  slots.foldl loadSlot []

/-! ## The heatmap cell loop (`create_heatmap_html`, main.py 277-313)

Per issuer row the code walks the canonical slot list carrying
`prev_revocations`; a present slot yields a colored cell with a possible
anomaly arrow, a missing slot yields a grey cell and sets
`prev_revocations = None`. -/

/-- What one rendered cell records: presence, background color, the
revocation delta embedded in the cell data, and the arrow text
(`'&#9650;'` rising / `'&#9660;'` falling, embedded as `"up"` / `"down"`). -/
structure CellOut where
  present : Bool
  bg : String
  rev_change : Int
  display_text : String
  deriving DecidableEq, Repr

/-- The body of the per-slot loop (main.py 278-313): from the carried
`prev_revocations` and the slot's status (or absence), the rendered cell and
the next `prev_revocations`. -/
def cellStep (prev : Option PyVal) : Option StatusEntry → CellOut × Option PyVal
  | none => ({ present := false, bg := "#f0f0f0", rev_change := 0, display_text := "" }, none)
  | some s =>
    let curr := s.num_revocations
    let (rc, txt) :=
      match prev, curr with
      | some (.pyInt p), .pyInt c =>
        let rc := c - p
        (rc, if rc.natAbs > 250 then
               (if rc > 0 then "up" else if rc < 0 then "down" else "")
             else "")
      | _, _ => ((0 : Int), "")
    ({ present := true, bg := get_status_color s.kind s.age,
       rev_change := rc, display_text := txt }, some curr)

/-- The cells of one issuer row, walking `file_dates` from a carried
baseline. -/
def rowCellsFrom (statuses : List (String × StatusEntry)) :
    Option PyVal → List String → List CellOut
  | _, [] => []
  | prev, ds :: rest =>
    let step := cellStep prev (findA statuses ds)
    step.1 :: rowCellsFrom statuses step.2 rest

/-- The rendered cells of one issuer row over the canonical slot list
(main.py 277-313; `prev_revocations` starts as `None`). -/
def rowCells (d : IssuerData) (file_dates : List String) : List CellOut :=
  rowCellsFrom d.statuses none file_dates

/-! ## The severity ranker (`create_heatmap_html.sort_key`, main.py 201-242) -/

/-- The scan state of `sort_key`'s loop over `data['statuses'].values()`:
the three flags and the carried `prev_revocations` (which the loop sets to
the current value unconditionally, main.py 229). -/
structure SortScan where
  has_error : Bool
  has_warning : Bool
  has_arrow : Bool
  prev : Option PyVal
  deriving DecidableEq, Repr

/-- One iteration of `sort_key`'s status loop (main.py 215-229). -/
def scanStep (acc : SortScan) (s : StatusEntry) : SortScan :=
  let bg := get_status_color s.kind s.age
  let acc :=
    if bg = "#FFB6C1" then { acc with has_error := true }
    else if bg = "#FFEB3B" then { acc with has_warning := true }
    else acc
  let curr := s.num_revocations
  let arrow :=
    match acc.prev, curr with
    | some (.pyInt p), .pyInt c => (c - p).natAbs > 250
    | _, _ => false
  { acc with has_arrow := acc.has_arrow || arrow, prev := some curr }

/-- The whole scan of `sort_key` over the issuer's *present* statuses, in
dict (= chronological insertion) order. -/
def scanStatuses (l : List StatusEntry) : SortScan :=
  l.foldl scanStep { has_error := false, has_warning := false,
                     has_arrow := false, prev := none }

/-- `create_heatmap_html.sort_key` (main.py 201-240): the sorting key
`(-priority, url.lower())` of one issuer, where `fdlen` is
`len(file_dates)`. -/
def sort_key (fdlen : Nat) (d : IssuerData) : Int × String :=
  let scan := scanStatuses (d.statuses.map (·.2))
  let priority0 : Int := if d.statuses.length < fdlen then 2 else 0
  let priority : Int :=
    if scan.has_error then 4
    else if scan.has_warning then 3
    else if scan.has_arrow then 1
    else priority0
  (-priority, pyLower d.url)

/-- Python tuple `≤` on an `(int, str)` key, used by `sorted`. -/
def keyLE (a b : Int × String) : Bool :=
  decide (a.1 < b.1) || (decide (a.1 = b.1) && decide (a.2 ≤ b.2))

/-- `sorted(issuer_statuses.keys(), key=sort_key)` (main.py 242): the
display order of issuers. -/
def sorted_issuers (st : List (String × IssuerData)) (fdlen : Nat) :
    List String :=
  (st.map (·.1)).mergeSort (fun a b =>
    keyLE (sort_key fdlen ((findA st a).getD ⟨"", "", []⟩))
          (sort_key fdlen ((findA st b).getD ⟨"", "", []⟩)))

/-! ## The run outcome (`main`, main.py 472-655) -/

/-- What one run produces: the single fatal outcome (`main.py 483-485`:
report the condition, `sys.exit(1)`, no report written), or a report whose
issuer rows are in display order. -/
inductive RunResult where
  | fatalNoData
  | report (issuerOrder : List String)
  deriving DecidableEq, Repr

/-- The decision structure of `main` (main.py 481-642): load all cached
slots; an empty issuer mapping is fatal; otherwise render the report. -/
def runMain (slots : List (String × SlotData)) : RunResult :=
  let st := load_cached_data slots
  if st.isEmpty then .fatalNoData
  else .report (sorted_issuers st slots.length)

/-! ## CT log lag (`ct_status.process_log`, `create_ct_log_table`)

`process_log` (ct_status.py 66-118) turns a manifest entry plus the live
STH poll into a result dict; `main` of ct_status.py (139-146) flattens it to
the row `create_ct_log_table` sorts.  The `time_diff` string is either
`'N/A'` or a signed decimal of hours; the embedding carries it as
`Option ℚ` with `none` for `'N/A'` (the two-decimal formatting of the
string does not change which rows are `'N/A'`). -/

/-- One manifest entry of `ct-logs.json` (fields read at ct_status.py
68-72). -/
structure CtLogEntry where
  shortURL : String
  logID : String
  minEntry : Int
  maxEntry : Int
  maxTimestamp : Int
  deriving DecidableEq, Repr

/-- A successfully parsed signed tree head with both required fields;
a failed poll, a non-2xx answer, malformed JSON or a missing field is
`none` at the use site (ct_status.py 79-80). -/
structure Sth where
  tree_size : Int
  timestamp : Int
  deriving DecidableEq, Repr

/-- One row of the CT-log table as ct_status.py's `main` emits it
(ct_status.py 139-146): `none` fields are the `'N/A'` / JSON-null values. -/
structure CtRow where
  url : String
  entry_lag : Option Int
  time_diff : Option ℚ
  tree_size : Option Int
  error : Option String
  deriving DecidableEq, Repr

/-- `process_log` followed by the row-building of ct_status.py's `main`
(ct_status.py 66-118 and 134-146): `none` for a skipped inactive log (empty
`LogID`); otherwise the emitted row.  A failed or malformed STH poll yields
the `'Failed to get STH'` row with `'N/A'` lag and time difference; with an
STH, `time_diff` is set only when both timestamps are positive. -/
def process_log (e : CtLogEntry) (sth : Option Sth) : Option CtRow :=
  if e.logID = "" then none
  else
    match sth with
    | none => some { url := e.shortURL, entry_lag := none, time_diff := none,
                     tree_size := none, error := some "Failed to get STH" }
    | some s =>
      let td : Option ℚ :=
        if 0 < e.maxTimestamp ∧ 0 < s.timestamp then
          some (((s.timestamp : ℚ) - (e.maxTimestamp : ℚ)) / (1000 * 60 * 60))
        else none
      some { url := e.shortURL, entry_lag := some (s.tree_size - e.maxEntry),
             time_diff := td, tree_size := some s.tree_size, error := none }

/-- The value `parse_time_diff` (main.py 413-421) sorts by: `float('inf')`
for a missing/unparseable time difference, else the absolute hours. -/
inductive TimeKey where
  | inf
  | fin (q : ℚ)
  deriving DecidableEq, Repr

/-- `parse_time_diff` (main.py 413-421) over the carried `Option ℚ`:
`'N/A'` (and the unparseable case it covers) is infinity, a number sorts by
its absolute value. -/
def parse_time_diff : Option ℚ → TimeKey
  | none => .inf
  | some q => .fin |q|

/-- Strict `<` on sort keys (`float('inf')` is the greatest). -/
def timeKeyLT : TimeKey → TimeKey → Bool
  | .inf, _ => false
  | .fin _, .inf => true
  | .fin a, .fin b => decide (a < b)

/-- The pairwise order of `sorted(ct_logs, key=sort_key, reverse=True)`
(main.py 428-432): row `x` may precede row `y` iff `x`'s key
`(parse_time_diff, url)` is lexicographically ≥ `y`'s. -/
def ctGE (x y : CtRow) : Bool :=
  timeKeyLT (parse_time_diff y.time_diff) (parse_time_diff x.time_diff)
  || (decide (parse_time_diff x.time_diff = parse_time_diff y.time_diff)
      && decide (y.url ≤ x.url))

/-- The sorted CT-log table rows (main.py 432). -/
def ct_sorted (logs : List CtRow) : List CtRow := logs.mergeSort ctGE

/-! ## Spec-side characterizations

Definitions following the spec's words, to be compared with the fold-based
code above (refinement): which cells are red/yellow, and whether two
chronologically adjacent *present* statuses differ by more than 250
revocations. -/

/-- Whether two present statuses, adjacent in the scan, trigger the anomaly
check: both counts are ints and they differ by more than 250. -/
def pairArrow (a b : StatusEntry) : Bool :=
  match a.num_revocations, b.num_revocations with
  | .pyInt p, .pyInt c => decide (250 < (c - p).natAbs)
  | _, _ => false

/-- An anomaly between some pair of adjacent statuses of the list. -/
def adjacentArrow : List StatusEntry → Bool
  | a :: b :: rest => pairArrow a b || adjacentArrow (b :: rest)
  | _ => false

/-- The anomaly check of one scan iteration against the carried baseline. -/
def prevArrow (prev : Option PyVal) (s : StatusEntry) : Bool :=
  match prev, s.num_revocations with
  | some (.pyInt p), .pyInt c => decide (250 < (c - p).natAbs)
  | _, _ => false

/-- The arrow flag contributed by a status list scanned from a carried
baseline. -/
def chainArrow : Option PyVal → List StatusEntry → Bool
  | _, [] => false
  | prev, s :: rest => prevArrow prev s || chainArrow (some s.num_revocations) rest

/-- The carried `prev_revocations` after scanning a status list. -/
def lastPrev : Option PyVal → List StatusEntry → Option PyVal
  | v, [] => v
  | _, s :: rest => lastPrev (some s.num_revocations) rest

/-- The issuer severity as the code actually computes it, spelled out as a
first-match chain over the whole timeline: any red cell is 4 (error), else
any yellow cell is 3 (warning; stale-valid cells are yellow), else any
anomaly between adjacent *present* statuses is 1, else incomplete slot
coverage is 2 (missing data), else 0. -/
def severitySpec (fdlen : Nat) (d : IssuerData) : Int :=
  let cells := d.statuses.map (·.2)
  if cells.any (fun s => get_status_color s.kind s.age == "#FFB6C1") then 4
  else if cells.any (fun s => get_status_color s.kind s.age == "#FFEB3B") then 3
  else if adjacentArrow cells then 1
  else if d.statuses.length < fdlen then 2
  else 0

/-! ## Concrete example inputs (used by counterexamples and witnesses) -/

/-- Issuer with counts 100 and 400 at the first and third of three expected
slots, the middle slot missing; both cells valid and fresh. -/
def c1ExampleIssuer : IssuerData :=
  ⟨"u", "CN=C1", [("d1", ⟨"Valid", .pyInt 100, "", "1h0m0s", "x"⟩),
                  ("d3", ⟨"Valid", .pyInt 400, "", "1h0m0s", "x"⟩)]⟩

/-- Issuer with counts 0 and 300 at two chronologically adjacent present
slots out of three expected; both cells valid and fresh. -/
def c2ExampleIssuer : IssuerData :=
  ⟨"u2", "CN=C2", [("d1", ⟨"Valid", .pyInt 0, "", "1h0m0s", "x"⟩),
                   ("d2", ⟨"Valid", .pyInt 300, "", "1h0m0s", "x"⟩)]⟩

/-- A single-slot issuer whose one valid cell is 400 hours old. -/
def c4StaleIssuer : IssuerData :=
  ⟨"u4", "CN=C4", [("d1", ⟨"Valid", .pyInt 5, "", "400h0m0s", "x"⟩)]⟩

/-- The same issuer with the same cell except a fresh age. -/
def c4FreshIssuer : IssuerData :=
  ⟨"u4", "CN=C4", [("d1", ⟨"Valid", .pyInt 5, "", "1h0m0s", "x"⟩)]⟩

/-- A well-formed audit entry with every field present. -/
def c5Entry : RawEntry :=
  ⟨some "https://ca.example/crl", some "CN=CA", some "Valid",
   some (.pyInt 7), some "", some "10h0m0s", some "abc"⟩

/-- An audit entry whose kind contains `Not Fresh` and `Valid`. -/
def c7NotFreshEntry : RawEntry :=
  ⟨some "https://ca.example/crl", some "CN=CA", some "Valid (Not Fresh)",
   some (.pyInt 7), some "", some "10h0m0s", some "abc"⟩

/-- Two audit entries lacking the `Url` field. -/
def c10Entry1 : RawEntry :=
  ⟨none, some "CN=A", some "Valid", some (.pyInt 1), some "", some "1h0m0s", some "s1"⟩

/-- A second `Url`-less entry with different contents. -/
def c10Entry2 : RawEntry :=
  ⟨none, some "CN=B", some "Warning: slow", some (.pyInt 2), some "", some "2h0m0s", some "s2"⟩

/-- A CT row with no available time difference. -/
def c8RowNA : CtRow := ⟨"zlog.example", none, none, none, some "Failed to get STH"⟩

/-- A CT row with a small numeric lag. -/
def c8RowFin : CtRow := ⟨"alog.example", some 10, some (1/2), some 100, none⟩

/-- A manifest entry with an active log id. -/
def c8Manifest : CtLogEntry := ⟨"alog.example", "id1", 0, 90, 1000⟩

/-! ## Helper lemmas -/

theorem pyIn_iff (needle hay : String) :
    pyIn needle hay = true ↔ needle.data <:+: hay.data := by
  simp [pyIn]

theorem findA_insertA_self {α : Type} (l : List (String × α)) (k : String) (v : α) :
    findA (insertA l k v) k = some v := by
  induction l with
  | nil => simp [insertA, findA]
  | cons p t ih =>
    by_cases h : p.1 = k
    · simp [insertA, findA, h]
    · simp [insertA, findA, h, ih]

theorem findA_insertA_ne {α : Type} (l : List (String × α)) (k k' : String) (v : α)
    (h : k ≠ k') : findA (insertA l k v) k' = findA l k' := by
  induction l with
  | nil => simp [insertA, findA, h]
  | cons p t ih =>
    by_cases hp : p.1 = k
    · simp [insertA, findA, hp, h]
    · by_cases hp' : p.1 = k'
      · simp [insertA, findA, hp, hp', Ne.symm h]
      · simp [insertA, findA, hp, hp', ih]
/-- C3: classification of a kind string is decided purely by literal
substring containment: a kind containing `"Valid"` or `"Empty"` (with any
surrounding text) is `valid`; else one containing `"Warning"` is `warning`;
everything else is `error`.  Containment is case-sensitive substring search
(`'Valid' in kind`), so surrounding text of any case never changes the
result. -/
theorem claim_C3_kind_classification (kind : String) :
    ((is_valid kind).2 = "valid" ↔
      ("Valid".data <:+: kind.data ∨ "Empty".data <:+: kind.data)) ∧
    ((is_valid kind).2 = "warning" ↔
      ("Warning".data <:+: kind.data ∧
        ¬("Valid".data <:+: kind.data ∨ "Empty".data <:+: kind.data))) ∧
    ((is_valid kind).2 = "error" ↔
      (¬("Valid".data <:+: kind.data ∨ "Empty".data <:+: kind.data) ∧
        ¬"Warning".data <:+: kind.data)) ∧
    (∀ pre post : List Char,
      (is_valid ⟨pre ++ "Valid".data ++ post⟩).2 = "valid" ∧
      (is_valid ⟨pre ++ "Empty".data ++ post⟩).2 = "valid") := by
  refine ⟨?_, ?_, ?_, ?_⟩
  · by_cases h1 : "Valid".data <:+: kind.data <;>
      by_cases h2 : "Empty".data <:+: kind.data <;>
      by_cases h3 : "Warning".data <:+: kind.data <;>
      simp [is_valid, pyIn, h1, h2, h3]
  · by_cases h1 : "Valid".data <:+: kind.data <;>
      by_cases h2 : "Empty".data <:+: kind.data <;>
      by_cases h3 : "Warning".data <:+: kind.data <;>
      simp [is_valid, pyIn, h1, h2, h3]
  · by_cases h1 : "Valid".data <:+: kind.data <;>
      by_cases h2 : "Empty".data <:+: kind.data <;>
      by_cases h3 : "Warning".data <:+: kind.data <;>
      simp [is_valid, pyIn, h1, h2, h3]
  · intro pre post
    refine ⟨?_, ?_⟩
    · simp only [is_valid, pyIn]
      rw [if_pos]
      simp only [Bool.or_eq_true, decide_eq_true_eq]
      left
      exact ⟨pre, post, rfl⟩
    · simp only [is_valid, pyIn]
      rw [if_pos]
      simp only [Bool.or_eq_true, decide_eq_true_eq]
      right
      exact ⟨pre, post, rfl⟩

/-- C6: in the rendered row, at a present slot whose carried baseline is the
integer count `p` of the chronologically previous present slot and whose own
count is the integer `c`, an anomaly arrow appears iff `|c - p| > 250`
(250 raises none, 251 does), rising for a positive delta and falling for a
negative one; and a non-integer count never produces a delta or anomaly and
resets the baseline exactly like a missing slot (`cellStep (some v) x =
cellStep none x` for non-int `v`). -/
theorem claim_C6_anomaly_threshold :
    (∀ (p c : Int) (kind errs age sha : String),
      let s : StatusEntry := ⟨kind, .pyInt c, errs, age, sha⟩
      (cellStep (some (.pyInt p)) (some s)).1.rev_change = c - p ∧
      ((cellStep (some (.pyInt p)) (some s)).1.display_text ≠ "" ↔
        250 < (c - p).natAbs) ∧
      (250 < c - p →
        (cellStep (some (.pyInt p)) (some s)).1.display_text = "up") ∧
      (c - p < -250 →
        (cellStep (some (.pyInt p)) (some s)).1.display_text = "down") ∧
      ((c - p).natAbs ≤ 250 →
        (cellStep (some (.pyInt p)) (some s)).1.display_text = "") ∧
      (cellStep (some (.pyInt p)) (some s)).2 = some (.pyInt c)) ∧
    (∀ (v : PyVal) (x : Option StatusEntry),
      v.isInt = false → cellStep (some v) x = cellStep none x) := by
  constructor
  · intro p c kind errs age sha
    by_cases h : 250 < (c - p).natAbs
    · have hne : c - p ≠ 0 := by
        intro h0; rw [h0] at h; simp at h
      rcases lt_or_gt_of_ne hne with hneg | hpos
      · simp [cellStep, h, hneg, not_lt_of_gt hneg]
        omega
      · simp [cellStep, h, hpos]
        omega
    · simp [cellStep, h]
      omega
  · intro v x hv
    cases v with
    | pyInt n => simp [PyVal.isInt] at hv
    | pyStr s => cases x <;> rfl
    | pyNone => cases x <;> rfl

/-- Witness for C6: a concrete non-integer count (`"N/A"`) resets the
baseline exactly like a missing slot. -/
theorem claim_C6_witness :
    cellStep (some (.pyStr "N/A")) (some ⟨"Valid", .pyInt 5, "", "1h0m0s", "x"⟩) =
      cellStep none (some ⟨"Valid", .pyInt 5, "", "1h0m0s", "x"⟩) :=
  claim_C6_anomaly_threshold.2 (.pyStr "N/A")
    (some ⟨"Valid", .pyInt 5, "", "1h0m0s", "x"⟩) rfl

/-- C7: an entry whose kind contains `"Not Fresh"` leaves the issuer mapping
untouched, and the ingestion of any entry list equals the ingestion of the
list with those entries removed — no record of the built mapping derives
from a `Not Fresh` entry, whatever else (such as `"Valid"`) its kind
contains. -/
theorem claim_C7_not_fresh_discarded :
    (∀ (ds : String) (st : List (String × IssuerData)) (e : RawEntry),
      isNotFresh e = true → ingestEntry ds st e = st) ∧
    (∀ (ds : String) (entries : List RawEntry) (st : List (String × IssuerData)),
      entries.foldl (ingestEntry ds) st =
        (entries.filter (fun e => !isNotFresh e)).foldl (ingestEntry ds) st) := by
  constructor
  · intro ds st e h
    simp [ingestEntry, h]
  · intro ds entries
    induction entries with
    | nil => intro st; rfl
    | cons e t ih =>
      intro st
      by_cases h : isNotFresh e
      · simp [List.foldl_cons, List.filter_cons, h, ingestEntry, ih]
      · simp [List.foldl_cons, List.filter_cons, h, ih]

/-- Witness for C7: the concrete entry with kind `"Valid (Not Fresh)"` is
discarded. -/
theorem claim_C7_witness :
    ingestEntry "20250101-0" [] c7NotFreshEntry = [] :=
  claim_C7_not_fresh_discarded.1 "20250101-0" [] c7NotFreshEntry (by decide)

/-- C9: a slot whose cached file fails to load or parse contributes exactly
what an absent slot contributes, with every other slot still processed
(`load_cached_data` over the list with the failing slot equals the run with
that slot absent); and the run is fatal — reporting and exiting without a
report — exactly when loading yields no issuer entries at all, otherwise a
report is produced. -/
theorem claim_C9_single_fatal_condition :
    (∀ (pre post : List (String × SlotData)) (ds : String),
      load_cached_data (pre ++ (ds, .loadError) :: post) =
        load_cached_data (pre ++ (ds, .absent) :: post)) ∧
    (∀ slots : List (String × SlotData),
      runMain slots = .fatalNoData ↔ load_cached_data slots = []) ∧
    (∀ slots : List (String × SlotData),
      load_cached_data slots ≠ [] →
        runMain slots = .report (sorted_issuers (load_cached_data slots) slots.length)) := by
  refine ⟨?_, ?_, ?_⟩
  · intro pre post ds
    simp [load_cached_data, List.foldl_append, loadSlot, slotEntries]
  · intro slots
    unfold runMain
    by_cases h : (load_cached_data slots).isEmpty
    · simp [h, List.isEmpty_iff.mp h]
    · simp [h]
      exact fun hc => h (by simp [hc, List.isEmpty_iff])
  · intro slots h
    unfold runMain
    rw [if_neg]
    simp [List.isEmpty_iff, h]

/-- Witness for C9: with the one slot failing to parse, the run is fatal
because nothing was loaded. -/
theorem claim_C9_witness :
    runMain [("20250101-0", .loadError)] = .fatalNoData ↔
      load_cached_data [("20250101-0", .loadError)] = [] :=
  claim_C9_single_fatal_condition.2.1 [("20250101-0", .loadError)]

/-- C10: audit entries lacking a `Url` field are all keyed under the literal
`"N/A"`: entries from different slots merge into the one shared `"N/A"`
timeline, two such entries in the same slot overwrite each other's per-slot
status (the later one wins), and the stored display url of that record is
the empty string (the record's identity fields come from the first such
entry seen). -/
theorem claim_C10_urlless_shared_timeline (ds₁ ds₂ : String) (e₁ e₂ : RawEntry)
    (h₁ : e₁.url = none) (h₂ : e₂.url = none)
    (hf₁ : isNotFresh e₁ = false) (hf₂ : isNotFresh e₂ = false)
    (hds : ds₁ ≠ ds₂) :
    load_cached_data [(ds₁, .doc (.obj (some [e₁]))), (ds₂, .doc (.obj (some [e₂])))] =
      [("N/A", ⟨"", e₁.issuerSubject.getD "N/A",
        [(ds₁, mkStatus e₁), (ds₂, mkStatus e₂)]⟩)] ∧
    load_cached_data [(ds₁, .doc (.obj (some [e₁, e₂])))] =
      [("N/A", ⟨"", e₁.issuerSubject.getD "N/A", [(ds₁, mkStatus e₂)]⟩)] := by
  constructor
  · simp [load_cached_data, loadSlot, slotEntries, ingestEntry, hf₁, hf₂,
      entryKey, h₁, h₂, findA, insertA, hds]
  · simp [load_cached_data, loadSlot, slotEntries, ingestEntry, hf₁, hf₂,
      entryKey, h₁, h₂, findA, insertA]

/-- Witness for C10 at the two concrete `Url`-less entries. -/
theorem claim_C10_witness :
    load_cached_data [("20250101-0", .doc (.obj (some [c10Entry1]))),
                      ("20250101-1", .doc (.obj (some [c10Entry2])))] =
      [("N/A", ⟨"", c10Entry1.issuerSubject.getD "N/A",
        [("20250101-0", mkStatus c10Entry1), ("20250101-1", mkStatus c10Entry2)]⟩)] ∧
    load_cached_data [("20250101-0", .doc (.obj (some [c10Entry1, c10Entry2])))] =
      [("N/A", ⟨"", c10Entry1.issuerSubject.getD "N/A",
        [("20250101-0", mkStatus c10Entry2)]⟩)] :=
  claim_C10_urlless_shared_timeline "20250101-0" "20250101-1" c10Entry1 c10Entry2
    rfl rfl (by decide) (by decide) (by decide)

theorem status_insert_isSome {l : List (String × StatusEntry)} {ds : String}
    (ds' : String) (v : StatusEntry) (h : (findA l ds).isSome) :
    (findA (insertA l ds' v) ds).isSome := by
  by_cases he : ds' = ds
  · subst he; rw [findA_insertA_self]; rfl
  · rw [findA_insertA_ne _ _ _ _ he]; exact h

theorem ingest_self (st : List (String × IssuerData)) (ds : String) (e : RawEntry)
    (hf : isNotFresh e = false) :
    ∃ d, findA (ingestEntry ds st e) (entryKey e) = some d ∧
      findA d.statuses ds = some (mkStatus e) := by
  unfold ingestEntry
  rw [hf]
  simp only [Bool.false_eq_true, if_false]
  exact ⟨_, findA_insertA_self _ _ _, findA_insertA_self _ _ _⟩

theorem ingest_preserves (ds ds' : String) (e : RawEntry) (k : String)
    (st : List (String × IssuerData)) (d : IssuerData)
    (hf : findA st k = some d) (hs : (findA d.statuses ds).isSome) :
    ∃ d', findA (ingestEntry ds' st e) k = some d' ∧
      (findA d'.statuses ds).isSome := by
  unfold ingestEntry
  by_cases hfresh : isNotFresh e
  · simp only [hfresh, if_true]
    exact ⟨d, hf, hs⟩
  · simp only [hfresh, Bool.false_eq_true, if_false]
    by_cases hk : entryKey e = k
    · subst hk
      rw [findA_insertA_self]
      refine ⟨_, rfl, ?_⟩
      rw [hf]
      exact status_insert_isSome ds' (mkStatus e) hs
    · rw [findA_insertA_ne _ _ _ _ hk]
      exact ⟨d, hf, hs⟩

theorem fold_preserves (ds ds' : String) (entries : List RawEntry) :
    ∀ (st : List (String × IssuerData)) (k : String),
      (∃ d, findA st k = some d ∧ (findA d.statuses ds).isSome) →
      ∃ d', findA (entries.foldl (ingestEntry ds') st) k = some d' ∧
        (findA d'.statuses ds).isSome := by
  induction entries with
  | nil => intro st k h; exact h
  | cons e t ih =>
    intro st k h
    obtain ⟨d, hf, hs⟩ := h
    exact ih _ k (ingest_preserves ds ds' e k st d hf hs)

/-- Counterexample to C5: a cached slot whose document is a top-level JSON
array of audit entries — the very format §6 specifies for the Snapshot
Source — is not ingested at all: the loader calls `data.get('Entries', [])`,
a list has no `.get`, and the caught `AttributeError` skips the slot. -/
theorem claim_C5_counterexample :
    load_cached_data [("20250101-0", .doc (.arr [c5Entry]))] = [] ∧
    findA (load_cached_data [("20250101-0", .doc (.arr [c5Entry]))])
      (entryKey c5Entry) = none := by
  constructor <;> rfl

/-- C5 as amended: for a cached slot whose document is a JSON *object* with
an `Entries` array (the shape `load_cached_data` actually reads), every
entry of the array not marked `Not Fresh` is ingested into the issuer
mapping keyed by its `Url` field, with a status recorded under that slot;
a top-level-array document is skipped as absent data. -/
theorem claim_C5_object_entries_ingested (st : List (String × IssuerData))
    (ds : String) (entries : List RawEntry) (e : RawEntry)
    (he : e ∈ entries) (hf : isNotFresh e = false) :
    ∃ d, findA (loadSlot st (ds, .doc (.obj (some entries)))) (entryKey e) = some d ∧
      (findA d.statuses ds).isSome := by
  have key : ∀ (l : List RawEntry) (st' : List (String × IssuerData)), e ∈ l →
      ∃ d, findA (l.foldl (ingestEntry ds) st') (entryKey e) = some d ∧
        (findA d.statuses ds).isSome := by
    intro l
    induction l with
    | nil => intro st' h; cases h
    | cons a t ih =>
      intro st' h
      rcases List.mem_cons.mp h with rfl | hmem
      · obtain ⟨d, hd, hds⟩ := ingest_self st' ds e hf
        exact fold_preserves ds ds t _ (entryKey e) ⟨d, hd, by rw [hds]; rfl⟩
      · exact ih _ hmem
  simpa [loadSlot, slotEntries] using key entries st he

/-- Witness for C5's amended theorem at the concrete entry. -/
theorem claim_C5_witness :
    ∃ d, findA (loadSlot [] ("20250101-0", .doc (.obj (some [c5Entry]))))
      (entryKey c5Entry) = some d ∧ (findA d.statuses "20250101-0").isSome :=
  claim_C5_object_entries_ingested [] "20250101-0" [c5Entry] c5Entry
    (List.mem_singleton.mpr rfl) (by decide)

/-- Counterexample to C4: two single-slot issuers identical except for the
age of their one `Valid` cell (400 hours vs 1 hour).  Both cells stay in the
`valid` category, yet the stale one puts its issuer in the warning severity
tier (priority 3) while the fresh one stays at priority 0 — stale-valid is
not display-only, it changes the issuer's severity. -/
theorem claim_C4_counterexample :
    (is_valid "Valid").2 = "valid" ∧
    get_status_color "Valid" "400h0m0s" = "#FFEB3B" ∧
    sort_key 1 c4StaleIssuer = (-3, "u4") ∧
    sort_key 1 c4FreshIssuer = (0, "u4") ∧
    sort_key 1 c4StaleIssuer ≠ sort_key 1 c4FreshIssuer := by
  decide

/-- C4 as amended: for a `valid` entry the stale-valid display state applies
iff the hours parsed from its age exceed 336 (`"336h0m0s"` is not stale,
`"337h0m0s"` is, an unparseable age is not); it never changes the entry's
health category (which is a function of the kind alone), but it does raise
the issuer's severity to the warning tier, because the ranker classifies
cells by their display color. -/
theorem claim_C4_stale_valid :
    (∀ kind age, (is_valid kind).2 = "valid" →
      (get_status_color kind age = "#FFEB3B" ↔
        ∃ h, parse_age_hours age = some h ∧ 336 < h)) ∧
    get_status_color "Valid" "336h0m0s" = "#90EE90" ∧
    get_status_color "Valid" "337h0m0s" = "#FFEB3B" ∧
    (∀ kind age, (is_valid kind).2 = "valid" → parse_age_hours age = none →
      get_status_color kind age = "#90EE90") ∧
    (∀ (u i ds kind age err sha : String) (rev : PyVal) (h : Int),
      (is_valid kind).2 = "valid" → parse_age_hours age = some h → 336 < h →
      sort_key 1 ⟨u, i, [(ds, ⟨kind, rev, err, age, sha⟩)]⟩ = (-3, pyLower u)) ∧
    (∀ (u i ds kind age err sha : String) (rev : PyVal) (h : Int),
      (is_valid kind).2 = "valid" → parse_age_hours age = some h → h ≤ 336 →
      sort_key 1 ⟨u, i, [(ds, ⟨kind, rev, err, age, sha⟩)]⟩ = (0, pyLower u)) := by
  refine ⟨?_, by decide, by decide, ?_, ?_, ?_⟩
  · intro kind age hv
    rcases hpa : parse_age_hours age with _ | h
    · simp [get_status_color, hv, hpa]
    · by_cases hh : h > 336
      · simp [get_status_color, hv, hpa, hh]
      · simp [get_status_color, hv, hpa, hh]
  · intro kind age hv hpa
    simp [get_status_color, hv, hpa]
  · intro u i ds kind age err sha rev h hv hpa hh
    have hbg : get_status_color kind age = "#FFEB3B" := by
      simp [get_status_color, hv, hpa, hh]
    simp [sort_key, scanStatuses, scanStep, hbg]
  · intro u i ds kind age err sha rev h hv hpa hh
    have hbg : get_status_color kind age = "#90EE90" := by
      simp [get_status_color, hv, hpa]
      omega
    simp [sort_key, scanStatuses, scanStep, hbg]

/-- Witness for C4's amended theorem at a concrete stale-valid issuer. -/
theorem claim_C4_witness :
    sort_key 1 ⟨"u4", "CN=C4", [("d1", ⟨"Valid", .pyInt 5, "", "400h0m0s", "x"⟩)]⟩ =
      (-3, pyLower "u4") :=
  claim_C4_stale_valid.2.2.2.2.1 "u4" "CN=C4" "d1" "Valid" "400h0m0s" "" "x"
    (.pyInt 5) 400 (by decide) (by decide) (by decide)

/-- Counterexample to C1: an issuer with counts 100 and 400 at the first and
third of three expected slots, the middle slot missing.  The rendered row
shows no anomaly anywhere (the per-cell delta baseline resets at the missing
slot), but the severity ranker — which scans only the present statuses —
bridges the gap, raises the anomaly and lands in the anomaly tier
(priority 1, key `-1`) instead of the missing-data tier (key `-2`) the
claimed reset would give. -/
theorem claim_C1_counterexample :
    (rowCells c1ExampleIssuer ["d1", "d2", "d3"]).map CellOut.display_text =
      ["", "", ""] ∧
    sort_key 3 c1ExampleIssuer = (-1, "u") ∧
    sort_key 3 c1ExampleIssuer ≠ (-2, "u") := by
  decide

/-- C1 as amended: the missing-slot reset holds for the per-cell delta of
the report — a missing slot renders grey and sets the baseline to `None`, so
the next present cell has no delta and no arrow — but not for the severity
ranker: its scan runs over the issuer's *present* statuses only, so two
present slots separated by a missing one are still compared, and an issuer
whose counts at those two slots differ by more than 250 lands in the anomaly
tier (priority 1) rather than the missing-data tier (priority 2). -/
theorem claim_C1_delta_baseline_reset :
    (∀ prev : Option PyVal,
      cellStep prev none = (⟨false, "#f0f0f0", 0, ""⟩, none)) ∧
    (∀ s : StatusEntry,
      (cellStep none (some s)).1.rev_change = 0 ∧
      (cellStep none (some s)).1.display_text = "" ∧
      (cellStep none (some s)).2 = some s.num_revocations) ∧
    (∀ (u i d₁ d₃ e₁ e₃ sh₁ sh₃ : String) (p c : Int),
      sort_key 3 ⟨u, i, [(d₁, ⟨"Valid", .pyInt p, e₁, "1h0m0s", sh₁⟩),
                         (d₃, ⟨"Valid", .pyInt c, e₃, "1h0m0s", sh₃⟩)]⟩ =
        (-(if 250 < (c - p).natAbs then (1 : Int) else 2), pyLower u)) := by
  refine ⟨fun prev => rfl, fun s => ⟨rfl, rfl, rfl⟩, ?_⟩
  intro u i d₁ d₃ e₁ e₃ sh₁ sh₃ p c
  have hbg : get_status_color "Valid" "1h0m0s" = "#90EE90" := by decide
  by_cases h : 250 < (c - p).natAbs <;>
    simp [sort_key, scanStatuses, scanStep, hbg, h]

theorem scanStep_fields (acc : SortScan) (s : StatusEntry) :
    scanStep acc s =
      ⟨acc.has_error || (get_status_color s.kind s.age == "#FFB6C1"),
       acc.has_warning || (get_status_color s.kind s.age == "#FFEB3B"),
       acc.has_arrow || prevArrow acc.prev s,
       some s.num_revocations⟩ := by
  rcases acc with ⟨e, w, b, prev⟩
  by_cases h1 : get_status_color s.kind s.age = "#FFB6C1"
  · have h2 : get_status_color s.kind s.age ≠ "#FFEB3B" := by
      rw [h1]; decide
    simp [scanStep, prevArrow, h1, h2]
  · by_cases h2 : get_status_color s.kind s.age = "#FFEB3B"
    · simp [scanStep, prevArrow, h1, h2]
    · simp [scanStep, prevArrow, h1, h2]

theorem prevArrow_pairArrow (b s : StatusEntry) :
    prevArrow (some b.num_revocations) s = pairArrow b s := by
  cases hb : b.num_revocations <;> cases hs : s.num_revocations <;>
    simp [prevArrow, pairArrow, hb, hs]

theorem chainArrow_adjacent (t : List StatusEntry) :
    ∀ b : StatusEntry, chainArrow (some b.num_revocations) t = adjacentArrow (b :: t) := by
  induction t with
  | nil => intro b; rfl
  | cons s rest ih =>
    intro b
    rw [chainArrow, prevArrow_pairArrow, adjacentArrow, ih s]

theorem chainArrow_none (l : List StatusEntry) :
    chainArrow none l = adjacentArrow l := by
  cases l with
  | nil => rfl
  | cons b t => rw [chainArrow, chainArrow_adjacent t b]; simp [prevArrow]

theorem scanStatuses_foldl (l : List StatusEntry) (acc : SortScan) :
    l.foldl scanStep acc =
      ⟨acc.has_error || l.any (fun s => get_status_color s.kind s.age == "#FFB6C1"),
       acc.has_warning || l.any (fun s => get_status_color s.kind s.age == "#FFEB3B"),
       acc.has_arrow || chainArrow acc.prev l,
       lastPrev acc.prev l⟩ := by
  induction l generalizing acc with
  | nil => rcases acc with ⟨e, w, b, prev⟩; simp [chainArrow, lastPrev]
  | cons s t ih =>
    rw [List.foldl_cons, ih, scanStep_fields]
    simp [chainArrow, lastPrev, Bool.or_assoc]

theorem sort_key_eq_severitySpec (fdlen : Nat) (d : IssuerData) :
    sort_key fdlen d = (-(severitySpec fdlen d), pyLower d.url) := by
  unfold sort_key severitySpec scanStatuses
  rw [scanStatuses_foldl, chainArrow_none]
  simp only [Bool.false_or]

theorem keyLE_total (x y : Int × String) : (keyLE x y || keyLE y x) = true := by
  simp only [keyLE, Bool.or_eq_true, Bool.and_eq_true, decide_eq_true_eq]
  rcases lt_trichotomy x.1 y.1 with h | h | h
  · exact Or.inl (Or.inl h)
  · rcases le_total x.2 y.2 with hs | hs
    · exact Or.inl (Or.inr ⟨h, hs⟩)
    · exact Or.inr (Or.inr ⟨h.symm, hs⟩)
  · exact Or.inr (Or.inl h)

theorem keyLE_trans (x y z : Int × String) (h1 : keyLE x y = true)
    (h2 : keyLE y z = true) : keyLE x z = true := by
  simp only [keyLE, Bool.or_eq_true, Bool.and_eq_true, decide_eq_true_eq] at h1 h2 ⊢
  rcases h1 with h1 | ⟨h1e, h1s⟩
  · rcases h2 with h2 | ⟨h2e, h2s⟩
    · exact Or.inl (lt_trans h1 h2)
    · exact Or.inl (h2e ▸ h1)
  · rcases h2 with h2 | ⟨h2e, h2s⟩
    · exact Or.inl (h1e ▸ h2)
    · exact Or.inr ⟨h1e.trans h2e, le_trans h1s h2s⟩

/-- Counterexample to C2: an issuer covering only two of three expected
slots whose two adjacent present counts jump by 300.  The claimed severity
is the maximum of missing-data(2) and anomaly(1), i.e. 2; the code's
`sort_key` instead lets the anomaly branch override the missing-data
priority and yields 1. -/
theorem claim_C2_counterexample :
    sort_key 3 c2ExampleIssuer = (-1, "u2") ∧
    sort_key 3 c2ExampleIssuer ≠ (-2, "u2") := by
  decide

/-- C2 as amended: the ranker orders issuers by `(-severity, url.lower())`
— worst first, ties broken by the lowercased issuer URL ascending — but the
issuer severity is a first-match chain, not a maximum: error(4) if any red
cell, else warning(3) if any yellow cell, else anomaly(1) if any two
adjacent present statuses jump by more than 250, else missing-data(2) if the
issuer has fewer present slots than expected, else 0.  An anomaly therefore
suppresses the missing-data tier (1 replaces 2) instead of being dominated
by it. -/
theorem claim_C2_severity_order :
    (∀ (fdlen : Nat) (d : IssuerData),
      sort_key fdlen d = (-(severitySpec fdlen d), pyLower d.url)) ∧
    (∀ (st : List (String × IssuerData)) (fdlen : Nat),
      (sorted_issuers st fdlen).Perm (st.map (·.1)) ∧
      (sorted_issuers st fdlen).Pairwise (fun a b =>
        keyLE (sort_key fdlen ((findA st a).getD ⟨"", "", []⟩))
              (sort_key fdlen ((findA st b).getD ⟨"", "", []⟩)) = true)) := by
  refine ⟨sort_key_eq_severitySpec, fun st fdlen => ⟨?_, ?_⟩⟩
  · unfold sorted_issuers
    exact List.mergeSort_perm _ _
  · unfold sorted_issuers
    exact List.sorted_mergeSort
      (fun a b c hab hbc =>
        keyLE_trans (sort_key fdlen ((findA st a).getD ⟨"", "", []⟩))
          (sort_key fdlen ((findA st b).getD ⟨"", "", []⟩))
          (sort_key fdlen ((findA st c).getD ⟨"", "", []⟩)) hab hbc)
      (fun a b => keyLE_total _ _)
      (st.map (·.1))

theorem timeKeyLT_trichotomy (a b : TimeKey) :
    timeKeyLT a b = true ∨ a = b ∨ timeKeyLT b a = true := by
  cases a with
  | inf =>
    cases b with
    | inf => exact Or.inr (Or.inl rfl)
    | fin q => exact Or.inr (Or.inr rfl)
  | fin p =>
    cases b with
    | inf => exact Or.inl rfl
    | fin q =>
      rcases lt_trichotomy p q with h | h | h
      · exact Or.inl (by simp [timeKeyLT, h])
      · exact Or.inr (Or.inl (by rw [h]))
      · exact Or.inr (Or.inr (by simp [timeKeyLT, h]))

theorem timeKeyLT_trans (a b c : TimeKey) (h1 : timeKeyLT a b = true)
    (h2 : timeKeyLT b c = true) : timeKeyLT a c = true := by
  cases a <;> cases b <;> cases c <;> simp [timeKeyLT] at h1 h2 ⊢
  exact lt_trans h1 h2

theorem timeKeyLT_irrefl (a : TimeKey) : timeKeyLT a a = false := by
  cases a <;> simp [timeKeyLT]

theorem ctGE_total (x y : CtRow) : (ctGE x y || ctGE y x) = true := by
  unfold ctGE
  rcases timeKeyLT_trichotomy (parse_time_diff x.time_diff)
      (parse_time_diff y.time_diff) with h | h | h
  · simp [h]
  · rw [h]
    simp only [decide_eq_true_eq, Bool.or_eq_true, Bool.and_eq_true]
    rcases le_total x.url y.url with hs | hs
    · exact Or.inr (Or.inr ⟨trivial, hs⟩)
    · exact Or.inl (Or.inr ⟨trivial, hs⟩)
  · simp [h]

theorem ctGE_trans (x y z : CtRow) (h1 : ctGE x y = true)
    (h2 : ctGE y z = true) : ctGE x z = true := by
  unfold ctGE at h1 h2 ⊢
  simp only [Bool.or_eq_true, Bool.and_eq_true, decide_eq_true_eq] at h1 h2 ⊢
  rcases h1 with h1 | ⟨h1e, h1s⟩
  · rcases h2 with h2 | ⟨h2e, h2s⟩
    · exact Or.inl (timeKeyLT_trans _ _ _ h2 h1)
    · exact Or.inl (by rw [← h2e]; exact h1)
  · rcases h2 with h2 | ⟨h2e, h2s⟩
    · exact Or.inl (by rw [h1e]; exact h2)
    · exact Or.inr ⟨h1e.trans h2e, le_trans h2s h1s⟩

/-- C8: the CT-log table is the input rows sorted descending by
`abs(time_diff_hours)` with ties broken by URL (the output is a permutation
of the input, pairwise ordered by the reverse-sorted key
`(parse_time_diff, url)`); a row whose time difference is unavailable sorts
as infinitely lagged — before every row with a numeric lag, whatever its
value; and `process_log` leaves the time difference unavailable exactly on a
failed STH poll or a non-positive timestamp on either side. -/
theorem claim_C8_ct_log_ordering :
    (∀ logs : List CtRow,
      (ct_sorted logs).Perm logs ∧
      (ct_sorted logs).Pairwise (fun a b => ctGE a b = true)) ∧
    (∀ (x y : CtRow) (q : ℚ), x.time_diff = none → y.time_diff = some q →
      ctGE x y = true ∧ ctGE y x = false) ∧
    (∀ e : CtLogEntry, e.logID ≠ "" →
      process_log e none = some ⟨e.shortURL, none, none, none,
        some "Failed to get STH"⟩) ∧
    (∀ (e : CtLogEntry) (s : Sth) (r : CtRow), e.logID ≠ "" →
      process_log e (some s) = some r →
      (r.time_diff = none ↔ e.maxTimestamp ≤ 0 ∨ s.timestamp ≤ 0)) := by
  refine ⟨fun logs => ⟨?_, ?_⟩, ?_, ?_, ?_⟩
  · exact List.mergeSort_perm _ _
  · exact List.sorted_mergeSort
      (fun a b c hab hbc => ctGE_trans a b c hab hbc)
      (fun a b => ctGE_total a b) logs
  · intro x y q hx hy
    constructor
    · simp [ctGE, hx, hy, parse_time_diff, timeKeyLT]
    · simp [ctGE, hx, hy, parse_time_diff, timeKeyLT]
  · intro e he
    simp [process_log, he]
  · intro e s r he hr
    simp only [process_log, he, if_false, Option.some.injEq] at hr
    subst hr
    by_cases hp : 0 < e.maxTimestamp ∧ 0 < s.timestamp
    · simp [hp]
    · simp [hp]
      omega

/-- Witness for C8: the concrete unavailable row sorts before the concrete
half-hour-lagged row, and the active manifest entry with a failed poll
produces the `'Failed to get STH'` row. -/
theorem claim_C8_witness :
    (ctGE c8RowNA c8RowFin = true ∧ ctGE c8RowFin c8RowNA = false) ∧
    process_log c8Manifest none = some ⟨"alog.example", none, none, none,
      some "Failed to get STH"⟩ :=
  ⟨claim_C8_ct_log_ordering.2.1 c8RowNA c8RowFin (1/2) rfl rfl,
   claim_C8_ct_log_ordering.2.2.1 c8Manifest (by decide)⟩
